import Mathlib

/-!
# Verification of the wormhole client control-protocol engine

Shallow embedding of `src/client/main.rs` of the wormhole repository: the
control-packet dispatcher (`process_control_flow_message`), the handshake
function (`connect_to_wormhole`), the read-dispatch loop of `run_wormhole`,
the end-of-stream grace task, and the restart supervisor of `main`.

Parts of the repository that the client file uses but that are not under
`src/` (the `wormhole` library crate holding the `ControlPacket` codec and
`PING_INTERVAL`, and `local.rs` holding `setup_new_stream`) are modelled
from the spec; each such definition carries a doc comment saying so.

Machine state is modelled explicitly: the process-wide stream registry
`ACTIVE_STREAMS` becomes a map from StreamId to a channel identifier, and
the per-stream unbounded channels become a heap from channel identifier to
a channel value (a closed flag for a dropped receiver, plus the list of
messages delivered so far). Spawned delayed tasks (the keepalive reschedule
and the end-of-stream grace task) are reified as scheduled-task values whose
later effect is a separate function, so that interleavings can be stated.
-/

namespace Wormhole

/-- StreamId: opaque identifier, equality and hashing on its raw bytes.
The wire format carries it fixed-width. -/
abbrev StreamId := List Nat

/-- Modelled from the spec: the fixed width of a StreamId on the wire.
The `wormhole` library crate defining it is not under src/. -/
def STREAM_ID_LEN : Nat := 8

/-- Modelled from the spec: protocol constant PING_INTERVAL, in seconds,
defined in the `wormhole` library crate which is not under src/. Its exact
value is not visible; the claims are insensitive to it. -/
def PING_INTERVAL : Nat := 5

/-- Grace delay, in seconds, between receiving End for a stream and tearing
it down: `Duration::from_secs(5)` at line 188 of `src/client/main.rs`. -/
def END_GRACE_SECS : Nat := 5

/-- Message sent over a per-stream channel (`StreamMessage` in main.rs). -/
inductive StreamMessage
  | Data (bytes : List Nat)
  | Close
deriving DecidableEq, Repr

/-- Control packet variants, from the `wormhole` library crate (visible
through the exhaustive match in `process_control_flow_message`). -/
inductive ControlPacket
  | Init (id : StreamId)
  | Data (id : StreamId) (payload : List Nat)
  | Refused (id : StreamId)
  | End (id : StreamId)
  | Ping
deriving DecidableEq, Repr

/-- Big-endian 32-bit length prefix read from four bytes. -/
def readU32BE (b : List Nat) : Nat :=
  match b with
  | [b0, b1, b2, b3] =>
      (b0 % 256) * 16777216 + (b1 % 256) * 65536 + (b2 % 256) * 256 + (b3 % 256)
  | _ => 0

/-- Modelled from the spec: `ControlPacket::deserialize` lives in the
`wormhole` library crate, not under src/. Per the spec wire format: a tag
byte followed by variant-specific fields; `Data`, `End`, `Init` and
`Refused` carry a fixed-width StreamId; `Data` additionally carries a
length-prefixed payload; truncated or unknown-tag input is rejected with a
decode error, never coerced. -/
def ControlPacket.deserialize (b : List Nat) : Except String ControlPacket :=
  match b with
  | [] => .error "EmptyInput"
  | tag :: rest =>
    if tag = 0 then
      if rest.isEmpty then .ok .Ping else .error "TrailingBytes"
    else if tag = 1 then
      if rest.length = STREAM_ID_LEN then .ok (.Init rest) else .error "BadStreamId"
    else if tag = 2 then
      if rest.length < STREAM_ID_LEN + 4 then .error "Truncated"
      else
        let id := rest.take STREAM_ID_LEN
        let lenBytes := (rest.drop STREAM_ID_LEN).take 4
        let payload := rest.drop (STREAM_ID_LEN + 4)
        if payload.length = readU32BE lenBytes then .ok (.Data id payload)
        else .error "BadLength"
    else if tag = 3 then
      if rest.length = STREAM_ID_LEN then .ok (.Refused rest) else .error "BadStreamId"
    else if tag = 4 then
      if rest.length = STREAM_ID_LEN then .ok (.End rest) else .error "BadStreamId"
    else .error "UnknownTag"

/-- A per-stream unbounded channel: `closed` means the receiver half has
been dropped (a send then fails); `msgs` is the list of messages delivered
so far, in order. -/
structure Chan where
  closed : Bool
  msgs : List StreamMessage
deriving DecidableEq, Repr

/-- Machine state of one connection attempt: the channel heap, the
process-wide `ACTIVE_STREAMS` registry (StreamId to channel identifier,
mirroring the `HashMap<StreamId, UnboundedSender<StreamMessage>>`), the
next fresh channel identifier, and whether the outbound tunnel queue still
has its receiver (the writer task) alive. -/
structure St where
  chans : Nat → Option Chan
  registry : StreamId → Option Nat
  nextChan : Nat
  tunnelOpen : Bool

/-- Registry lookup: `ACTIVE_STREAMS.read().unwrap().get(&id).cloned()`. -/
def St.lookup (st : St) (id : StreamId) : Option Nat := st.registry id

/-- Registry membership: `ACTIVE_STREAMS.read().unwrap().contains_key(&id)`. -/
def St.contains (st : St) (id : StreamId) : Bool := (st.registry id).isSome

/-- Registry removal: `ACTIVE_STREAMS.write().unwrap().remove(&id)`. -/
def St.removeStream (id : StreamId) (st : St) : St :=
  { st with registry := fun j => if j = id then none else st.registry j }

/-- Send on a per-stream channel: fails exactly when the receiver half has
been dropped (the failure mode of `UnboundedSender::send`); otherwise the
message is appended to the delivered list. -/
def St.sendToChan (st : St) (cid : Nat) (m : StreamMessage) : Except Unit St :=
  match st.chans cid with
  | some c =>
      if c.closed then .error ()
      else .ok { st with
        chans := fun n => if n = cid then some { c with msgs := c.msgs ++ [m] } else st.chans n }
  | none => .error ()

/-- The empty attempt state: no channels, no registry entries, writer task
alive. -/
def St.empty : St :=
  { chans := fun _ => none, registry := fun _ => none, nextChan := 0, tunnelOpen := true }

/-- Modelled from the spec: `local::setup_new_stream` lives in `local.rs`,
not under src/. Per the spec, the Local Forwarder `establish` either opens
a connection to the local service, returns a fresh channel and registers it
under the StreamId, or fails, in which case no registry entry is created.
The boolean `ok` is the environment oracle for whether establishment
succeeds on this call. -/
def setup_new_stream (ok : Bool) (id : StreamId) (st : St) : St :=
  if ok then
    { st with
      chans := fun n => if n = st.nextChan then some { closed := false, msgs := [] } else st.chans n,
      registry := fun j => if j = id then some st.nextChan else st.registry j,
      nextChan := st.nextChan + 1 }
  else st

/-- A delayed task spawned by the dispatcher: either the keepalive
reschedule (delay then enqueue one Ping) or the end-of-stream grace task
for a StreamId. -/
inductive Sched
  | pingAfter (secs : Nat)
  | endGraceTask (id : StreamId)
deriving DecidableEq, Repr

/-- Control packets a spawned task enqueues on the outbound tunnel queue
when its delay elapses: the keepalive task enqueues exactly one Ping; the
grace task enqueues nothing outbound (its Close goes to the per-stream
channel). -/
def Sched.fire_outbound : Sched → List ControlPacket
  | .pingAfter _ => [.Ping]
  | .endGraceTask _ => []

/-- Immediate effects of one dispatch: packets queued on the outbound
tunnel queue, delayed tasks spawned, and the number of calls made to the
Local Forwarder establish operation. -/
structure Effects where
  outbound : List ControlPacket
  scheduled : List Sched
  establishCalls : Nat
deriving DecidableEq, Repr

/-- Dispatch of one decoded ControlPacket, mirroring the match in
`process_control_flow_message` (main.rs lines 166 to 216):
Init is logged only; Ping spawns a delayed re-ping; Refused is a protocol
violation returned as an error; End spawns the grace task and touches
nothing now; Data establishes lazily for an unknown id, then forwards to
the found channel (the send error propagates, per the question-mark
operator at line 209), or queues one Refused when no channel was found. -/
def process_packet (establishOk : Bool) (st : St) : ControlPacket → Except String (St × Effects)
  | .Init _ => .ok (st, ⟨[], [], 0⟩)
  | .Ping => .ok (st, ⟨[], [Sched.pingAfter PING_INTERVAL], 0⟩)
  | .Refused _ => .error "unexpected control packet"
  | .End id => .ok (st, ⟨[], [Sched.endGraceTask id], 0⟩)
  | .Data id data =>
      let st1 := if st.contains id then st else setup_new_stream establishOk id st
      let calls := if st.contains id then 0 else 1
      match st1.lookup id with
      | some cid =>
          match st1.sendToChan cid (StreamMessage.Data data) with
          | .ok st2 => .ok (st2, ⟨[], [], calls⟩)
          | .error _ => .error "failed to send to stream"
      | none =>
          if st1.tunnelOpen then .ok (st1, ⟨[ControlPacket.Refused id], [], calls⟩)
          else .error "tunnel closed"

/-- One inbound transport message processed: deserialize, then dispatch;
a decode error is returned as-is with nothing dispatched (main.rs line
164). -/
def process_control_flow_message (establishOk : Bool) (st : St) (payload : List Nat) :
    Except String (St × Effects) :=
  match ControlPacket.deserialize payload with
  | .error e => .error e
  | .ok p => process_packet establishOk st p

/-- The end-of-stream grace task, phase one (main.rs line 186): when the
spawned task starts it reads the registry and clones the sender for the
ended StreamId, capturing it (or nothing) before the delay. -/
def end_grace_inspect (st : St) (id : StreamId) : Option Nat := st.lookup id

/-- The end-of-stream grace task, phase two (main.rs lines 187 to 193):
after the five-second delay, when a sender was captured, Close is sent to
it best-effort (a failure is logged and swallowed) and the registry entry
for the StreamId is removed; when nothing was captured the task does
nothing at all. -/
def end_grace_fire (st : St) (id : StreamId) (captured : Option Nat) : St :=
  match captured with
  | none => st
  | some cid =>
      let st1 := match st.sendToChan cid StreamMessage.Close with
        | .ok s => s
        | .error _ => st
      St.removeStream id st1

/-- Packets enqueued on the outbound tunnel queue by `run_wormhole`
immediately upon connection establishment, before the read loop starts:
exactly one Ping (main.rs line 88). -/
def run_wormhole_startup_packets : List ControlPacket := [ControlPacket.Ping]

/-- One observation of the websocket read half: a delivered message
payload (with the establish oracle for any Data it holds), a read error,
or end of stream. -/
inductive WsEvent
  | msg (establishOk : Bool) (payload : List Nat)
  | readErr
  | ended

/-- How the read-dispatch loop of `run_wormhole` ends: a dispatch error
(malformed protocol control packet, main.rs line 95), a websocket read
error (line 100), the websocket ending (line 104), or still pending on the
next read when the supplied events run out. -/
inductive LoopExit
  | protocolError (e : String)
  | readError
  | streamEnded
  | pending
deriving DecidableEq, Repr

/-- The read-dispatch loop of `run_wormhole` (main.rs lines 91 to 108) run
over a finite prefix of websocket events: each delivered message is passed
to `process_control_flow_message`; any dispatch error, read error or
stream end returns from the loop (ending the attempt). Returns the final
state, the per-message effects in order, and how the loop ended. -/
def read_loop (st : St) : List WsEvent → St × List Effects × LoopExit
  | [] => (st, [], LoopExit.pending)
  | .readErr :: _ => (st, [], LoopExit.readError)
  | .ended :: _ => (st, [], LoopExit.streamEnded)
  | .msg ok payload :: rest =>
      match process_control_flow_message ok st payload with
      | .error e => (st, [], LoopExit.protocolError e)
      | .ok (st1, eff) =>
          let r := read_loop st1 rest
          (r.1, eff :: r.2.1, r.2.2)

/-- Server hello variants, from the `wormhole` library crate (visible
through the exhaustive match in `connect_to_wormhole`). -/
inductive ServerHello
  | Success (sub_domain : String)
  | AuthFailed
  | InvalidSubDomain
  | SubDomainInUse
deriving DecidableEq, Repr

/-- The reply observed while awaiting the server hello, mirroring the
nested match in `connect_to_wormhole` (main.rs lines 122 to 157):
a decoded ServerHello, a JSON decode failure, a websocket read error, or
no reply at all. -/
inductive HelloReply
  | hello (h : ServerHello)
  | badJson (e : String)
  | wsError (e : String)
  | empty
deriving DecidableEq, Repr

/-- Environment behaviour of one handshake: the transport connect fails
(`connect_async` returns Err, line 112), sending the client hello fails
(line 119), or a reply outcome is observed. -/
inductive ConnectInput
  | connectFail
  | sendHelloFail
  | reply (r : HelloReply)
deriving DecidableEq, Repr

/-- Outcome of `connect_to_wormhole`: either a panic (the diagnostic
message of the `expect` or `panic` call, which unwinds out of the main
task and terminates the process with a non-zero exit) or a successful
handshake with the assigned sub-domain. -/
inductive ConnectResult
  | panicked (diagnostic : String)
  | connected (sub_domain : String)
deriving DecidableEq, Repr

/-- `connect_to_wormhole` (main.rs lines 111 to 161): every failure path
panics with a human-readable diagnostic; only `ServerHello::Success`
proceeds. -/
def connect_to_wormhole : ConnectInput → ConnectResult
  | .connectFail => .panicked "Failed to connect to wormhole server."
  | .sendHelloFail => .panicked "Failed to send client hello to wormhole server."
  | .reply (.hello (.Success sd)) => .connected sd
  | .reply (.hello .AuthFailed) => .panicked "Authentication failed. Check your authentication key."
  | .reply (.hello .InvalidSubDomain) => .panicked "Invalid sub-domain specified"
  | .reply (.hello .SubDomainInUse) => .panicked "Cannot use this sub-domain, it\x27s already taken."
  | .reply (.badJson _) => .panicked "connection failed."
  | .reply (.wsError _) => .panicked "connection failed."
  | .reply .empty => .panicked "Empty reply from server. Unknown failure to connect to server."

/-- Outcome of one full connection attempt as seen by the process: a
panic escaping `run_wormhole` terminates the process (the supervisor loop
in `main` never catches it), a returned `run_wormhole` hands control back
to the supervisor, or the attempt is still active when the supplied events
run out. -/
inductive AttemptOutcome
  | processExit (diagnostic : String)
  | attemptReturned
  | stillActive
deriving DecidableEq, Repr

/-- One attempt: `connect_to_wormhole` then the read loop. A handshake
panic exits the process; after a successful handshake the attempt ends by
returning whenever the read loop exits for any reason. -/
def run_attempt (inp : ConnectInput) (st : St) (events : List WsEvent) : AttemptOutcome :=
  match connect_to_wormhole inp with
  | .panicked m => .processExit m
  | .connected _ =>
      match (read_loop st events).2.2 with
      | LoopExit.pending => .stillActive
      | _ => .attemptReturned

/-- The restart supervisor (the loop in `main`, lines 49 to 54): it starts
a fresh attempt exactly when the previous attempt returned (directly or
via the restart signal); a panic propagates out of `main` instead. -/
def supervisor_restarts : AttemptOutcome → Bool
  | .attemptReturned => true
  | _ => false

end Wormhole

namespace Wormhole

/-- Concrete StreamId used in witnesses and counterexamples. -/
def id0 : StreamId := [1, 2, 3, 4, 5, 6, 7, 8]

/-- Attempt state holding one registered stream whose receiver half has
already been dropped (channel 0 closed). -/
def stDroppedReceiver : St :=
  { chans := fun n => if n = 0 then some ⟨true, []⟩ else none,
    registry := fun j => if j = id0 then some 0 else none,
    nextChan := 1, tunnelOpen := true }

/-- Attempt state holding one registered, live stream (channel 0 open). -/
def stLive : St :=
  { chans := fun n => if n = 0 then some ⟨false, []⟩ else none,
    registry := fun j => if j = id0 then some 0 else none,
    nextChan := 1, tunnelOpen := true }

/-- Encoded Data packet for `id0` with the one-byte payload `[9]`. -/
def dataPayload0 : List Nat := 2 :: id0 ++ [0, 0, 0, 1] ++ [9]

/-- C2: upon connection establishment exactly one Ping is enqueued on the
outbound queue immediately, and every inbound Ping packet spawns exactly
one delayed task that fires after PING_INTERVAL seconds and enqueues
exactly one Ping — no other outbound packet, no registry action, and no
second schedule. -/
theorem keepalive_ping_exact (ok : Bool) (st : St) (payload : List Nat)
    (h : ControlPacket.deserialize payload = .ok ControlPacket.Ping) :
    run_wormhole_startup_packets = [ControlPacket.Ping] ∧
    process_control_flow_message ok st payload =
      .ok (st, ⟨[], [Sched.pingAfter PING_INTERVAL], 0⟩) ∧
    Sched.fire_outbound (Sched.pingAfter PING_INTERVAL) = [ControlPacket.Ping] := by
  refine ⟨rfl, ?_, rfl⟩
  simp [process_control_flow_message, h, process_packet]

/-- C2 witness: the one-byte Ping encoding dispatched on the empty state. -/
theorem keepalive_ping_exact_witness :
    process_control_flow_message true St.empty [0] =
      .ok (St.empty, ⟨[], [Sched.pingAfter PING_INTERVAL], 0⟩) :=
  (keepalive_ping_exact true St.empty [0] rfl).2.1

/-- C9: an inbound Init packet is logging only — the dispatcher returns
success with the state unchanged, no outbound packet and no scheduled
task. -/
theorem init_is_logging_only (ok : Bool) (st : St) (payload : List Nat) (id : StreamId)
    (h : ControlPacket.deserialize payload = .ok (ControlPacket.Init id)) :
    process_control_flow_message ok st payload = .ok (st, ⟨[], [], 0⟩) := by
  simp [process_control_flow_message, h, process_packet]

/-- C9 witness: an encoded Init packet for `id0` on the empty state. -/
theorem init_is_logging_only_witness :
    process_control_flow_message true St.empty (1 :: id0) = .ok (St.empty, ⟨[], [], 0⟩) :=
  init_is_logging_only true St.empty (1 :: id0) id0 rfl

/-- C6: an inbound Refused packet is fatal malformed-protocol input — the
dispatcher returns an error with no state change and no outbound action,
and the read loop exits immediately on it. -/
theorem refused_packet_fatal (ok : Bool) (st : St) (payload : List Nat) (id : StreamId)
    (h : ControlPacket.deserialize payload = .ok (ControlPacket.Refused id)) :
    process_control_flow_message ok st payload = .error "unexpected control packet" ∧
    ∀ rest, read_loop st (WsEvent.msg ok payload :: rest) =
      (st, [], LoopExit.protocolError "unexpected control packet") := by
  have hp : process_control_flow_message ok st payload = .error "unexpected control packet" := by
    simp [process_control_flow_message, h, process_packet]
  exact ⟨hp, fun rest => by simp [read_loop, hp]⟩

/-- C6 witness: an encoded Refused packet for `id0` on the empty state. -/
theorem refused_packet_fatal_witness :
    process_control_flow_message true St.empty (3 :: id0) = .error "unexpected control packet" :=
  (refused_packet_fatal true St.empty (3 :: id0) id0 rfl).1

/-- C7: an inbound payload that fails ControlPacket deserialization makes
the dispatcher return the decode error with nothing dispatched, and the
read loop exits immediately on it. -/
theorem decode_failure_terminates (ok : Bool) (st : St) (payload : List Nat) (e : String)
    (h : ControlPacket.deserialize payload = .error e) :
    process_control_flow_message ok st payload = .error e ∧
    ∀ rest, read_loop st (WsEvent.msg ok payload :: rest) = (st, [], LoopExit.protocolError e) := by
  have hp : process_control_flow_message ok st payload = .error e := by
    simp [process_control_flow_message, h]
  exact ⟨hp, fun rest => by simp [read_loop, hp]⟩

/-- C7 witness: an unknown tag byte on the empty state. -/
theorem decode_failure_terminates_witness :
    process_control_flow_message true St.empty [9] = .error "UnknownTag" :=
  (decode_failure_terminates true St.empty [9] "UnknownTag" rfl).1

/-- C10: an End packet for a StreamId with no live registry entry at the
time the grace task inspects the registry is a silent no-op — the
dispatcher returns success scheduling only the grace task, the inspection
captures nothing, firing with nothing captured leaves the state untouched
and sends no Close, and the grace task enqueues nothing outbound. -/
theorem end_unknown_stream_noop (ok : Bool) (st : St) (id : StreamId)
    (h : st.registry id = none) :
    process_packet ok st (ControlPacket.End id) =
      .ok (st, ⟨[], [Sched.endGraceTask id], 0⟩) ∧
    end_grace_inspect st id = none ∧
    end_grace_fire st id none = st ∧
    Sched.fire_outbound (Sched.endGraceTask id) = [] := by
  exact ⟨rfl, by simp [end_grace_inspect, St.lookup, h], rfl, rfl⟩

/-- C10 witness: End for `id0` on the empty state captures nothing. -/
theorem end_unknown_stream_noop_witness :
    end_grace_inspect St.empty id0 = none ∧ end_grace_fire St.empty id0 none = St.empty :=
  ⟨(end_unknown_stream_noop true St.empty id0 rfl).2.1,
   (end_unknown_stream_noop true St.empty id0 rfl).2.2.1⟩

end Wormhole


namespace Wormhole

/-- Dispatch of Data for a StreamId whose registry entry points at a live
channel: the payload is appended to that channel and nothing else
happens. Helper lemma computing the exact result. -/
theorem process_data_known (ok : Bool) (st : St) (id : StreamId) (cid : Nat)
    (ms : List StreamMessage) (data : List Nat)
    (hreg : st.registry id = some cid) (hchan : st.chans cid = some ⟨false, ms⟩) :
    process_packet ok st (ControlPacket.Data id data) =
      .ok ({ st with
        chans := fun n => if n = cid then some ⟨false, ms ++ [StreamMessage.Data data]⟩
                 else st.chans n }, ⟨[], [], 0⟩) := by
  have hcont : st.contains id = true := by simp [St.contains, hreg]
  simp [process_packet, hcont, St.lookup, hreg, St.sendToChan, hchan]

/-- Dispatch of Data for an unknown StreamId with establishment
succeeding: one establish call, a fresh registered channel holding the
forwarded payload. Helper lemma computing the exact result. -/
theorem process_data_unknown_ok (st : St) (id : StreamId) (data : List Nat)
    (hunk : st.registry id = none) :
    process_packet true st (ControlPacket.Data id data) =
      .ok ({ st with
        chans := fun n => if n = st.nextChan then some ⟨false, [StreamMessage.Data data]⟩
                 else if n = st.nextChan then some ⟨false, []⟩ else st.chans n,
        registry := fun j => if j = id then some st.nextChan else st.registry j,
        nextChan := st.nextChan + 1 }, ⟨[], [], 1⟩) := by
  have hcont : st.contains id = false := by simp [St.contains, hunk]
  simp [process_packet, hcont, setup_new_stream, St.lookup, St.sendToChan]

end Wormhole

namespace Wormhole

/-- C5: an End packet for a StreamId with a live registry entry does not
remove the entry at dispatch time — only the grace task is scheduled, and
the grace delay is five seconds; the task captures the live sender; a Data
packet dispatched within the grace window still finds the entry and is
forwarded to the live channel; and once the grace task fires, Close has
been delivered to the channel and the registry entry is absent. -/
theorem end_grace_window (ok : Bool) (st : St) (id : StreamId) (cid : Nat)
    (ms : List StreamMessage) (data : List Nat)
    (hreg : st.registry id = some cid) (hchan : st.chans cid = some ⟨false, ms⟩) :
    process_packet ok st (ControlPacket.End id) =
      .ok (st, ⟨[], [Sched.endGraceTask id], 0⟩) ∧
    END_GRACE_SECS = 5 ∧
    end_grace_inspect st id = some cid ∧
    (∃ st2, process_packet ok st (ControlPacket.Data id data) = .ok (st2, ⟨[], [], 0⟩) ∧
      st2.chans cid = some ⟨false, ms ++ [StreamMessage.Data data]⟩ ∧
      st2.registry id = some cid) ∧
    (end_grace_fire st id (some cid)).registry id = none ∧
    (end_grace_fire st id (some cid)).chans cid = some ⟨false, ms ++ [StreamMessage.Close]⟩ := by
  refine ⟨rfl, rfl, by simp [end_grace_inspect, St.lookup, hreg], ?_, ?_, ?_⟩
  · exact ⟨_, process_data_known ok st id cid ms data hreg hchan, by simp, by simpa using hreg⟩
  · simp [end_grace_fire, St.sendToChan, hchan, St.removeStream]
  · simp [end_grace_fire, St.sendToChan, hchan, St.removeStream]

/-- C5 witness: End then in-window Data for `id0` on the live state. -/
theorem end_grace_window_witness :
    end_grace_inspect stLive id0 = some 0 ∧
    (end_grace_fire stLive id0 (some 0)).registry id0 = none :=
  ⟨(end_grace_window true stLive id0 0 [] [9] rfl rfl).2.2.1,
   (end_grace_window true stLive id0 0 [] [9] rfl rfl).2.2.2.2.1⟩

/-- C3: a Data packet for an unknown StreamId first triggers one Local
Forwarder establish call; on success the returned channel is registered
under the id and the payload forwarded to it, with nothing queued
outbound; on failure exactly one Refused packet is queued outbound and no
registry entry for the id is created (the state is unchanged). -/
theorem data_unknown_stream (st : St) (id : StreamId) (data : List Nat)
    (hunk : st.registry id = none) (htun : st.tunnelOpen = true) :
    (∃ st2,
      process_packet true st (ControlPacket.Data id data) = .ok (st2, ⟨[], [], 1⟩) ∧
      st2.registry id = some st.nextChan ∧
      st2.chans st.nextChan = some ⟨false, [StreamMessage.Data data]⟩ ∧
      (∀ j, j ≠ id → st2.registry j = st.registry j)) ∧
    process_packet false st (ControlPacket.Data id data) =
      .ok (st, ⟨[ControlPacket.Refused id], [], 1⟩) := by
  have hcont : st.contains id = false := by simp [St.contains, hunk]
  constructor
  · exact ⟨_, process_data_unknown_ok st id data hunk, by simp, by simp,
      fun j hj => by simp [hj]⟩
  · simp [process_packet, hcont, setup_new_stream, St.lookup, hunk, htun]

/-- C3 witness: establishment failure for `id0` on the empty state queues
exactly one Refused. -/
theorem data_unknown_stream_witness :
    process_packet false St.empty (ControlPacket.Data id0 [9]) =
      .ok (St.empty, ⟨[ControlPacket.Refused id0], [], 1⟩) :=
  (data_unknown_stream St.empty id0 [9] rfl rfl).2

/-- C8: two Data packets dispatched back-to-back for a previously-unseen
StreamId, with the first establishment succeeding, invoke the Local
Forwarder establish exactly once in total — the first dispatch makes one
call, the second makes zero and only forwards its payload to the channel
the first dispatch created. -/
theorem lazy_creation_idempotent (st : St) (id : StreamId) (d1 d2 : List Nat)
    (hunk : st.registry id = none) :
    ∃ st2 st3,
      process_packet true st (ControlPacket.Data id d1) = .ok (st2, ⟨[], [], 1⟩) ∧
      process_packet true st2 (ControlPacket.Data id d2) = .ok (st3, ⟨[], [], 0⟩) ∧
      st3.chans st.nextChan =
        some ⟨false, [StreamMessage.Data d1, StreamMessage.Data d2]⟩ ∧
      st3.registry id = some st.nextChan := by
  have h1 := process_data_unknown_ok st id d1 hunk
  have h2 := process_data_known true
      ({ st with
        chans := fun n => if n = st.nextChan then some ⟨false, [StreamMessage.Data d1]⟩
                 else if n = st.nextChan then some ⟨false, []⟩ else st.chans n,
        registry := fun j => if j = id then some st.nextChan else st.registry j,
        nextChan := st.nextChan + 1 })
      id st.nextChan [StreamMessage.Data d1] d2 (by simp) (by simp)
  exact ⟨_, _, h1, h2, by simp, by simp⟩

/-- C8 witness: two concrete Data packets for `id0` on the empty state. -/
theorem lazy_creation_idempotent_witness :
    ∃ st2 st3,
      process_packet true St.empty (ControlPacket.Data id0 [1]) = .ok (st2, ⟨[], [], 1⟩) ∧
      process_packet true st2 (ControlPacket.Data id0 [2]) = .ok (st3, ⟨[], [], 0⟩) ∧
      st3.chans St.empty.nextChan =
        some ⟨false, [StreamMessage.Data [1], StreamMessage.Data [2]]⟩ ∧
      st3.registry id0 = some St.empty.nextChan :=
  lazy_creation_idempotent St.empty id0 [1] [2] rfl

end Wormhole

namespace Wormhole

/-- C4 counterexample: a Data packet for a registered stream whose
receiver has already dropped is not swallowed — the dispatcher returns an
error and the read-dispatch loop terminates the connection attempt on it,
contradicting the claim that the loop continues. -/
theorem data_send_failure_not_swallowed :
    process_control_flow_message true stDroppedReceiver dataPayload0 =
      .error "failed to send to stream" ∧
    read_loop stDroppedReceiver [WsEvent.msg true dataPayload0] =
      (stDroppedReceiver, [], LoopExit.protocolError "failed to send to stream") :=
  ⟨rfl, rfl⟩

/-- C4 amended: a failed send of a Data StreamMessage to a registered
stream propagates out of the dispatcher and terminates the Active state
(the read loop returns); the swallowed, logged-only case is the
best-effort Close send inside the end-grace task, which never surfaces an
error and still removes the registry entry. -/
theorem stream_send_failure_policy (ok : Bool) (st : St) (id : StreamId) (cid : Nat)
    (ms : List StreamMessage) (data : List Nat) (payload : List Nat)
    (hreg : st.registry id = some cid) (hchan : st.chans cid = some ⟨true, ms⟩)
    (hdec : ControlPacket.deserialize payload = .ok (ControlPacket.Data id data)) :
    process_control_flow_message ok st payload = .error "failed to send to stream" ∧
    (∀ rest, read_loop st (WsEvent.msg ok payload :: rest) =
      (st, [], LoopExit.protocolError "failed to send to stream")) ∧
    end_grace_fire st id (some cid) = St.removeStream id st := by
  have hcont : st.contains id = true := by simp [St.contains, hreg]
  have hp : process_control_flow_message ok st payload = .error "failed to send to stream" := by
    simp [process_control_flow_message, hdec, process_packet, hcont, St.lookup, hreg,
      St.sendToChan, hchan]
  refine ⟨hp, fun rest => by simp [read_loop, hp], ?_⟩
  simp [end_grace_fire, St.sendToChan, hchan]

/-- C4 amended witness: the concrete dropped-receiver state. -/
theorem stream_send_failure_policy_witness :
    process_control_flow_message true stDroppedReceiver dataPayload0 =
      .error "failed to send to stream" ∧
    end_grace_fire stDroppedReceiver id0 (some 0) = St.removeStream id0 stDroppedReceiver :=
  ⟨(stream_send_failure_policy true stDroppedReceiver id0 0 [] [9] dataPayload0
      rfl rfl rfl).1,
   (stream_send_failure_policy true stDroppedReceiver id0 0 [] [9] dataPayload0
      rfl rfl rfl).2.2⟩

/-- C1 counterexample: a transport connect failure does not terminate only
the current attempt — `connect_to_wormhole` panics, the panic escapes the
supervisor loop, and the process exits; the supervisor never starts a
fresh attempt, contradicting the claim. -/
theorem connect_failure_exits_process :
    run_attempt ConnectInput.connectFail St.empty [] =
      AttemptOutcome.processExit "Failed to connect to wormhole server." ∧
    supervisor_restarts (run_attempt ConnectInput.connectFail St.empty []) = false :=
  ⟨rfl, rfl⟩

/-- C1 amended: every handshake-phase failure terminates the process with
a non-zero exit after a human-readable diagnostic — not only AuthFailed
and InvalidSubDomain but also SubDomainInUse, transport connect failure,
hello send failure, a malformed or empty server hello, and handshake read
errors; only a successful handshake proceeds, and after it every
Active-state failure (read error, stream end, dispatch error) merely ends
the attempt, which the Restart Supervisor transparently restarts. -/
theorem attempt_failure_taxonomy (st : St) (events : List WsEvent) :
    run_attempt (ConnectInput.reply (HelloReply.hello ServerHello.AuthFailed)) st events =
      .processExit "Authentication failed. Check your authentication key." ∧
    run_attempt (ConnectInput.reply (HelloReply.hello ServerHello.InvalidSubDomain)) st events =
      .processExit "Invalid sub-domain specified" ∧
    run_attempt (ConnectInput.reply (HelloReply.hello ServerHello.SubDomainInUse)) st events =
      .processExit "Cannot use this sub-domain, it\x27s already taken." ∧
    run_attempt ConnectInput.connectFail st events =
      .processExit "Failed to connect to wormhole server." ∧
    run_attempt ConnectInput.sendHelloFail st events =
      .processExit "Failed to send client hello to wormhole server." ∧
    (∀ e, run_attempt (ConnectInput.reply (HelloReply.badJson e)) st events =
      .processExit "connection failed.") ∧
    (∀ e, run_attempt (ConnectInput.reply (HelloReply.wsError e)) st events =
      .processExit "connection failed.") ∧
    run_attempt (ConnectInput.reply HelloReply.empty) st events =
      .processExit "Empty reply from server. Unknown failure to connect to server." ∧
    (∀ sd, run_attempt (ConnectInput.reply (HelloReply.hello (ServerHello.Success sd))) st events
        = .attemptReturned ∨
      run_attempt (ConnectInput.reply (HelloReply.hello (ServerHello.Success sd))) st events
        = .stillActive) ∧
    (∀ sd rest, run_attempt (ConnectInput.reply (HelloReply.hello (ServerHello.Success sd))) st
        (WsEvent.readErr :: rest) = .attemptReturned) ∧
    (∀ sd rest, run_attempt (ConnectInput.reply (HelloReply.hello (ServerHello.Success sd))) st
        (WsEvent.ended :: rest) = .attemptReturned) ∧
    supervisor_restarts AttemptOutcome.attemptReturned = true ∧
    (∀ m, supervisor_restarts (AttemptOutcome.processExit m) = false) := by
  refine ⟨rfl, rfl, rfl, rfl, rfl, fun e => rfl, fun e => rfl, rfl, ?_, fun sd rest => rfl,
    fun sd rest => rfl, rfl, fun m => rfl⟩
  intro sd
  simp only [run_attempt, connect_to_wormhole]
  cases (read_loop st events).2.2 <;> simp

end Wormhole
